import Mathlib

/-!
Verification of the keeper lifecycle supervisor (`keeper/lifecycle.py`).

The development shallowly embeds the `Web3Lifecycle` class: the supervisory
loop (`_main_loop`), the shutdown sequence (`__exit__`), the startup account
check (`_check_account_unlocked`), the block-event dispatcher installed by
`on_block` (`new_block_callback`), the self-rescheduling periodic timer
(`every`), and the `AsyncCallback` single-flight handle that `lifecycle.py`
imports from the `keeper` package.

External effects (the node RPC, the logger, real threads and timers) are
modelled by explicit per-tick snapshots of the values the code reads and by
traces of abstract steps the code performs.
-/

namespace Keeper

/-- The values read by one iteration of the supervisory loop in `_main_loop`:
the two termination request flags, the registry liveness answer
`all_filter_threads_alive()`, the `_last_block_time` field, the current clock
`datetime.datetime.now()` (both as integer seconds), the node's
`web3.eth.syncing` answer, and the two values of the loop guard
(`any_filter_thread_present()` and `_at_least_one_every`). -/
structure Snapshot where
  terminated_internally : Bool
  terminated_externally : Bool
  all_filter_threads_alive : Bool
  last_block_time : Option Int
  now : Int
  syncing : Bool
  any_filter_thread_present : Bool
  at_least_one_every : Bool
  deriving DecidableEq, Repr

/-- Outcome of one loop iteration: either the loop continues to the next
tick, or it breaks out; `stop b` records whether the break was preceded by
`self.fatal_termination = True` (`b = true`) or not (`b = false`). -/
inductive TickResult where
  | next : TickResult
  | stop (setFatal : Bool) : TickResult
  deriving DecidableEq, Repr

/-- The staleness test on line 197 of `lifecycle.py`:
`self._last_block_time and (datetime.datetime.now() - self._last_block_time).total_seconds() > 300`.
`None` is falsy in Python, so a missing timestamp makes the test false. -/
def isStale (s : Snapshot) : Bool :=
  match s.last_block_time with
  | none => false
  | some t => decide (300 < s.now - t)

/-- One iteration of the body of the `while` loop in `_main_loop`
(lines 167-201), after the `time.sleep(1)`: the four checks in source
order — internal termination, external termination, dead filter thread
(sets fatal), staleness while not syncing (sets fatal). -/
def main_loop_tick (s : Snapshot) : TickResult :=
  if s.terminated_internally then TickResult.stop false
  else if s.terminated_externally then TickResult.stop false
  else if !s.all_filter_threads_alive then TickResult.stop true
  else if isStale s && !s.syncing then TickResult.stop true
  else TickResult.next

/-- What a (finite observation window of a) run of `_main_loop` produced:
the value of `fatal_termination` when the loop was left, and how many times
the loop body executed. -/
structure LoopOutcome where
  fatal : Bool
  ticks : Nat
  deriving DecidableEq, Repr

/-- The `while any_filter_thread_present() or self._at_least_one_every`
loop of `_main_loop`, run over a finite list of per-iteration snapshots.
The guard is re-evaluated from the snapshot before each iteration; a `stop`
result breaks out, recording the fatal flag. If the window is exhausted the
current fatal flag (still `false` unless a check set it) is reported. -/
def main_loop (fatal : Bool) : List Snapshot → LoopOutcome
  | [] => ⟨fatal, 0⟩
  | s :: rest =>
    if s.any_filter_thread_present || s.at_least_one_every then
      match main_loop_tick s with
      | TickResult.next =>
        let o := main_loop fatal rest
        ⟨o.fatal, o.ticks + 1⟩
      | TickResult.stop f => ⟨fatal || f, 1⟩
    else ⟨fatal, 0⟩

/-- The exit status computed on line 71 of `lifecycle.py`:
`exit(10 if self.fatal_termination else 0)`. -/
def exitCode (fatal : Bool) : Int :=
  if fatal then 10 else 0

/-- Abstract externally visible steps of a lifecycle run (`__exit__` and
`_check_account_unlocked`). `stopPeriodicTimers` and `waitForPeriodicTimers`
are in the vocabulary so that their absence from every run can be stated;
`__exit__` has no corresponding calls. -/
inductive Step where
  | signTest
  | startupHook
  | loopTick
  | stopAllWatchers
  | waitForCallback
  | shutdownHook
  | stopPeriodicTimers
  | waitForPeriodicTimers
  | exited (code : Int)
  deriving DecidableEq, Repr

/-- The configuration a lifecycle run depends on: whether
`web3.eth.sign(...)` raises in `_check_account_unlocked`, whether the
optional hooks were registered, whether `_on_block_callback` was set by
`on_block`, whether `any_filter_thread_present()` holds at shutdown, the
per-tick snapshots the loop reads, and whether a periodic (`every`)
callback happens to be running when shutdown starts — a field `__exit__`
never reads. -/
structure RunConfig where
  signFails : Bool
  hasStartupHook : Bool
  hasShutdownHook : Bool
  hasOnBlockCallback : Bool
  anyWatcherAtShutdown : Bool
  snapshots : List Snapshot
  periodicCallbackInFlight : Bool
  deriving DecidableEq, Repr

/-- The shutdown sequence of `__exit__` (lines 59-71), translated from the
source: stop all filter threads if any is present, wait on the on-block
callback handle if one exists, run the shutdown hook if registered, then
exit with `10` or `0` according to the fatal flag. -/
def shutdownSequence (anyWatcher hasCallback hasHook fatal : Bool) : List Step :=
  (if anyWatcher then [Step.stopAllWatchers] else [])
    ++ (if hasCallback then [Step.waitForCallback] else [])
    ++ (if hasHook then [Step.shutdownHook] else [])
    ++ [Step.exited (exitCode fatal)]

/-- The shutdown sequence exactly as the specification words it: "if any
watcher is registered, stop all of them; then, if an event callback handle
exists, wait for any in-flight invocation to finish; then, if a shutdown
hook was registered, invoke it; then terminate with the exit status". This
definition is written from the spec, to be compared with
`shutdownSequence`, which is written from the source. -/
def specShutdownSequence (anyWatcher hasCallback hasHook fatal : Bool) : List Step :=
  (if anyWatcher then [Step.stopAllWatchers] else [])
    ++ (if hasCallback then [Step.waitForCallback] else [])
    ++ (if hasHook then [Step.shutdownHook] else [])
    ++ [Step.exited (if fatal then 10 else 0)]

/-- A whole lifecycle run, as the trace of steps `__exit__` performs:
`_check_account_unlocked` (the signing test, with `exit(-1)` on failure
before anything else runs), the optional startup hook, the supervisory
loop, then the shutdown sequence. The trace never depends on
`periodicCallbackInFlight`: `__exit__` neither stops nor waits for the
daemon timers created by `every`. -/
def lifecycleRun (c : RunConfig) : List Step :=
  if c.signFails then [Step.signTest, Step.exited (-1)]
  else
    let o := main_loop false c.snapshots
    [Step.signTest]
      ++ (if c.hasStartupHook then [Step.startupHook] else [])
      ++ List.replicate o.ticks Step.loopTick
      ++ shutdownSequence c.anyWatcherAtShutdown c.hasOnBlockCallback
          c.hasShutdownHook o.fatal

/-- What `new_block_callback` (installed by `on_block`, lines 103-123)
reads while handling one raw block event: the block number resolved from
the delivered hash, the node's `web3.eth.blockNumber` at that moment, and
the node's `web3.eth.syncing` answer. -/
structure BlockEvent where
  number : Int
  nodeMax : Int
  syncing : Bool
  deriving DecidableEq, Repr

/-- What `new_block_callback` did with one event. -/
inductive BlockAction where
  | triggered
  | ignoredBusy
  | ignoredNotMax
  | ignoredSyncing
  deriving DecidableEq, Repr

/-- The dispatch logic of `new_block_callback` (lines 107-123): if the node
is not syncing and the block number equals the node's current
`blockNumber`, attempt `trigger()` on the async callback — which reports
`triggered` when it started the callback and `ignoredBusy` when the
previous invocation was still running; otherwise discard the event, with
the reason logged. `busy` is whether the previous callback invocation is
still in flight when `trigger()` is attempted. -/
def new_block_callback (busy : Bool) (e : BlockEvent) : BlockAction :=
  if !e.syncing then
    if e.number = e.nodeMax then
      if busy then BlockAction.ignoredBusy else BlockAction.triggered
    else BlockAction.ignoredNotMax
  else BlockAction.ignoredSyncing

/-- Actions taken over a list of delivered events (the callback never busy). -/
def traceActions (es : List BlockEvent) : List BlockAction :=
  es.map (new_block_callback false)

/-- The claim as the specification states it, written from the spec's
words for comparison with `new_block_callback`: walking the delivered
events in order, every event on which the dispatcher attempts a trigger
must carry a sequence number strictly greater than every previously
delivered sequence number ("only events whose sequence number marks a
strictly new maximum cause a callback trigger attempt"). `seen` collects
the numbers of the events already delivered. -/
def specOnlyNewMaximaTrigger (busy : Bool) : List BlockEvent → List Int → Bool
  | [], _ => true
  | e :: rest, seen =>
    (if new_block_callback busy e = BlockAction.triggered
        || new_block_callback busy e = BlockAction.ignoredBusy
      then seen.all (fun n => decide (n < e.number)) else true)
      && specOnlyNewMaximaTrigger busy rest (e.number :: seen)

/-- The `timer.daemon = True` assignment on line 137 of `lifecycle.py`:
every timer created by `every`'s `setup_timer` is a daemon thread. -/
def timerDaemon : Bool := true

/-- What one execution of `every`'s inner `func` does, as an event list. -/
inductive TimerEvent where
  | invokeCallback
  | scheduleTimer (delay : Int)
  | raiseError
  deriving DecidableEq, Repr

/-- The body of `every`'s `func` (lines 140-146): invoke the callback; if
it raises, reschedule a timer for `frequency_in_seconds` and re-raise; if
it returns normally, reschedule the same timer. `raises` is whether the
user callback raises on this firing. -/
def everyFunc (frequency_in_seconds : Int) (raises : Bool) : List TimerEvent :=
  if raises then
    [TimerEvent.invokeCallback, TimerEvent.scheduleTimer frequency_in_seconds,
      TimerEvent.raiseError]
  else
    [TimerEvent.invokeCallback, TimerEvent.scheduleTimer frequency_in_seconds]

/-- The firing schedule of `every` (lines 134-148): `setup_timer(1)` is
called once at registration, so the first firing is after delay 1; each
firing of `func` calls `setup_timer(frequency_in_seconds)` whether or not
the callback raised, so firing `k + 1` happens `frequency_in_seconds`
after firing `k`. `fireTime f k` is the absolute time of firing `k`,
counting from the `every` call. -/
def fireTime (frequency_in_seconds : Int) : Nat → Int
  | 0 => 1
  | k + 1 => fireTime frequency_in_seconds k + frequency_in_seconds

/-- Modelled from the spec: the state of the `AsyncCallback` handle that
`lifecycle.py` imports from the `keeper` package (its source is not among
the files here). Spec §4.1 and §3: the handle wraps a user function plus a
"currently running" flag; `trigger(before, after)` returns `false` at once,
invoking nothing, while an invocation is still running, and otherwise
invokes `before` synchronously and starts the function; completion invokes
`after` and clears the flag. The counters record how many times each of
`before`, the wrapped function and `after` have been invoked, and
`inFlight` counts executions started but not yet completed. -/
structure AsyncCallbackState where
  running : Bool
  inFlight : Nat
  beforeCalls : Nat
  funcStarts : Nat
  afterCalls : Nat
  deriving DecidableEq, Repr

/-- Modelled from the spec: the handle before any trigger. -/
def acInit : AsyncCallbackState := ⟨false, 0, 0, 0, 0⟩

/-- Modelled from the spec: `trigger(before, after)`. Returns the new state
and the boolean result: `false` with the state untouched (no hook, no
function start) when an invocation is in flight, else `true` after setting
the running flag, invoking `before` and starting the wrapped function. -/
def acTrigger (s : AsyncCallbackState) : AsyncCallbackState × Bool :=
  if s.running then (s, false)
  else
    ({ s with
        running := true
        inFlight := s.inFlight + 1
        beforeCalls := s.beforeCalls + 1
        funcStarts := s.funcStarts + 1 }, true)

/-- Modelled from the spec: completion of the wrapped function (whether it
returned or raised): invoke `after` and clear the running flag. Completion
can only really occur while an execution is in flight; on an idle handle it
is a no-op, keeping the step function total. -/
def acComplete (s : AsyncCallbackState) : AsyncCallbackState :=
  if s.running then
    { s with
        running := false
        inFlight := s.inFlight - 1
        afterCalls := s.afterCalls + 1 }
  else s

/-- An event in the life of an `AsyncCallback` handle: a `trigger()` call,
or the completion of the in-flight execution. -/
inductive ACEvent where
  | trigger
  | complete
  deriving DecidableEq, Repr

/-- Apply one event to the handle state. -/
def acStep (s : AsyncCallbackState) : ACEvent → AsyncCallbackState
  | ACEvent.trigger => (acTrigger s).1
  | ACEvent.complete => acComplete s

/-- The handle state after a sequence of events, starting idle. -/
def acRun (es : List ACEvent) : AsyncCallbackState :=
  es.foldl acStep acInit

/-- The single-flight invariant of the handle: the number of executions in
flight is `1` exactly while the running flag is set, `0` otherwise. -/
def acGood (s : AsyncCallbackState) : Prop :=
  s.inFlight = if s.running then 1 else 0

theorem acStep_good (s : AsyncCallbackState) (e : ACEvent) (h : acGood s) :
    acGood (acStep s e) := by
  cases e with
  | trigger =>
    by_cases hr : s.running
    · simpa [acStep, acTrigger, acGood, hr] using h
    · unfold acGood at h
      simp [hr] at h
      simp [acStep, acTrigger, acGood, hr, h]
  | complete =>
    by_cases hr : s.running
    · unfold acGood at h
      simp [hr] at h
      simp [acStep, acComplete, acGood, hr, h]
    · simpa [acStep, acComplete, acGood, hr] using h

theorem acRun_good (es : List ACEvent) : acGood (acRun es) := by
  suffices h : ∀ s : AsyncCallbackState, acGood s → acGood (es.foldl acStep s) from
    h acInit (by simp [acGood, acInit])
  induction es with
  | nil => intro s hs; simpa using hs
  | cons e rest ih => intro s hs; exact ih (acStep s e) (acStep_good s e hs)

/-- Claim C1: over every sequence of `trigger` and completion events, the
`AsyncCallback` handle keeps at most one execution of the wrapped function
in flight, and a `trigger()` call made while the previous invocation has
not completed returns `false` and leaves the state untouched — so neither
`before`, nor `after`, nor the wrapped function is invoked by it. -/
theorem asyncCallback_single_flight (es : List ACEvent) :
    (acRun es).inFlight ≤ 1 ∧
      ((acRun es).running = true → acTrigger (acRun es) = (acRun es, false)) := by
  have h := acRun_good es
  constructor
  · unfold acGood at h
    split at h <;> omega
  · intro hr
    simp [acTrigger, hr]

theorem asyncCallback_single_flight_witness :
    (acRun [ACEvent.trigger]).inFlight ≤ 1 ∧
      acTrigger (acRun [ACEvent.trigger]) = (acRun [ACEvent.trigger], false) :=
  ⟨(asyncCallback_single_flight [ACEvent.trigger]).1,
    (asyncCallback_single_flight [ACEvent.trigger]).2 rfl⟩

/-- Claim C2 counterexample: `new_block_callback` does not restrict trigger
attempts to strictly new maxima. When the node's head stays at block 5 and
the filter delivers block 5 twice, the second delivery also satisfies
`block_number == max_block_number` and triggers the callback again, though
5 is not a strictly new maximum over the numbers already delivered; the
spec-worded predicate `specOnlyNewMaximaTrigger` therefore fails on this
trace. -/
theorem on_block_new_maxima_counterexample :
    specOnlyNewMaximaTrigger false [⟨5, 5, false⟩, ⟨5, 5, false⟩] [] = false ∧
      traceActions [⟨5, 5, false⟩, ⟨5, 5, false⟩] =
        [BlockAction.triggered, BlockAction.triggered] := by
  decide

/-- Claim C2 (amended): with the node not synchronizing, an event causes a
callback trigger attempt exactly when its block number equals the node's
current maximum block number at processing time; all other events (and all
events while syncing) are discarded without invoking the callback. In the
[5, 5, 6, 4] scenario where the node's head has already advanced to 6 when
the duplicate 5 is processed, only the first 5 and the 6 trigger; the
duplicate 5 and the out-of-order 4 are discarded. -/
theorem on_block_triggers_iff_current_max (busy : Bool) (e : BlockEvent) :
    ((new_block_callback busy e = BlockAction.triggered ∨
        new_block_callback busy e = BlockAction.ignoredBusy) ↔
      (e.syncing = false ∧ e.number = e.nodeMax)) ∧
      traceActions [⟨5, 5, false⟩, ⟨5, 6, false⟩, ⟨6, 6, false⟩, ⟨4, 6, false⟩] =
        [BlockAction.triggered, BlockAction.ignoredNotMax,
          BlockAction.triggered, BlockAction.ignoredNotMax] := by
  constructor
  · unfold new_block_callback
    by_cases hs : e.syncing <;> by_cases hn : e.number = e.nodeMax <;>
      cases busy <;> simp [hs, hn]
  · decide

theorem on_block_triggers_iff_current_max_witness :
    ((new_block_callback false ⟨5, 5, false⟩ = BlockAction.triggered ∨
        new_block_callback false ⟨5, 5, false⟩ = BlockAction.ignoredBusy) ↔
      ((⟨5, 5, false⟩ : BlockEvent).syncing = false ∧
        (⟨5, 5, false⟩ : BlockEvent).number = (⟨5, 5, false⟩ : BlockEvent).nodeMax)) ∧
      traceActions [⟨5, 5, false⟩, ⟨5, 6, false⟩, ⟨6, 6, false⟩, ⟨4, 6, false⟩] =
        [BlockAction.triggered, BlockAction.ignoredNotMax,
          BlockAction.triggered, BlockAction.ignoredNotMax] :=
  on_block_triggers_iff_current_max false ⟨5, 5, false⟩

/-- Claim C3 counterexample: a tick can satisfy every staleness condition
(timestamp present, older than 300, node not syncing) and still break
without setting the fatal flag, because `terminated_internally` is checked
first. On this snapshot the loop exits with `fatal = false` and exit code
0, while the claim requires the fatal flag to be set. -/
theorem staleness_fatal_counterexample :
    isStale ⟨true, false, true, some 0, 1000, false, true, false⟩ = true ∧
      (⟨true, false, true, some 0, 1000, false, true, false⟩ : Snapshot).syncing = false ∧
      main_loop_tick ⟨true, false, true, some 0, 1000, false, true, false⟩ =
        TickResult.stop false ∧
      (main_loop false [⟨true, false, true, some 0, 1000, false, true, false⟩]).fatal
          = false ∧
      exitCode
          (main_loop false [⟨true, false, true, some 0, 1000, false, true, false⟩]).fatal
        = 0 := by
  decide

/-- Claim C3 (amended): for every tick at which a last-event timestamp
exists, is older than 300 time units, the node is not resynchronizing, and
neither an internal nor an external termination request is pending, the
loop sets the fatal flag and breaks; if the node is resynchronizing the
staleness check is suppressed, and such a tick (with all watchers alive)
continues the loop. -/
theorem staleness_fatal_amended (s : Snapshot)
    (hstale : isStale s = true)
    (hint : s.terminated_internally = false)
    (hext : s.terminated_externally = false) :
    (s.syncing = false → main_loop_tick s = TickResult.stop true) ∧
      (s.syncing = true → s.all_filter_threads_alive = true →
        main_loop_tick s = TickResult.next) := by
  constructor
  · intro hs
    unfold main_loop_tick
    by_cases ha : s.all_filter_threads_alive <;> simp [hint, hext, ha, hstale, hs]
  · intro hs ha
    unfold main_loop_tick
    simp [hint, hext, ha, hstale, hs]

theorem staleness_fatal_amended_witness :
    main_loop_tick ⟨false, false, true, some 0, 500, false, true, false⟩ =
      TickResult.stop true :=
  (staleness_fatal_amended ⟨false, false, true, some 0, 500, false, true, false⟩
    (by decide) rfl rfl).1 rfl

/-- Claim C4 counterexample: a tick at which the registry reports a dead
filter thread does break, but when an external termination request is
pending at the same tick the break happens at the earlier check, without
setting the fatal flag: the run then exits with code 0, not the fatal exit
status the claim requires. -/
theorem dead_watcher_fatal_counterexample :
    (⟨false, true, false, none, 0, false, true, false⟩ : Snapshot).all_filter_threads_alive
        = false ∧
      main_loop_tick ⟨false, true, false, none, 0, false, true, false⟩ =
        TickResult.stop false ∧
      (main_loop false [⟨false, true, false, none, 0, false, true, false⟩]).fatal
          = false ∧
      exitCode (main_loop false [⟨false, true, false, none, 0, false, true, false⟩]).fatal
        = 0 := by
  decide

/-- Claim C4 (amended): a tick at which the registry reports a dead watcher
never continues the loop; provided neither an internal nor an external
termination request is pending at that tick, the loop sets the fatal flag
and breaks, and the run exits with the fatal exit status 10. -/
theorem dead_watcher_breaks_amended (s : Snapshot) (rest : List Snapshot)
    (hdead : s.all_filter_threads_alive = false) :
    main_loop_tick s ≠ TickResult.next ∧
      (s.terminated_internally = false → s.terminated_externally = false →
        main_loop_tick s = TickResult.stop true ∧
          ((s.any_filter_thread_present || s.at_least_one_every) = true →
            main_loop false (s :: rest) = ⟨true, 1⟩ ∧
              exitCode (main_loop false (s :: rest)).fatal = 10)) := by
  constructor
  · unfold main_loop_tick
    by_cases h1 : s.terminated_internally <;> by_cases h2 : s.terminated_externally <;>
      simp [h1, h2, hdead]
  · intro h1 h2
    have ht : main_loop_tick s = TickResult.stop true := by
      unfold main_loop_tick
      simp [h1, h2, hdead]
    refine ⟨ht, fun hg => ?_⟩
    have hrun : main_loop false (s :: rest) = ⟨true, 1⟩ := by
      unfold main_loop
      simp [hg, ht]
    exact ⟨hrun, by rw [hrun]; rfl⟩

theorem dead_watcher_breaks_amended_witness :
    main_loop false [(⟨false, false, false, none, 0, false, true, false⟩ : Snapshot)] =
        ⟨true, 1⟩ ∧
      exitCode
          (main_loop false
            [(⟨false, false, false, none, 0, false, true, false⟩ : Snapshot)]).fatal
        = 10 :=
  ((dead_watcher_breaks_amended ⟨false, false, false, none, 0, false, true, false⟩ []
      rfl).2 rfl rfl).2 rfl

/-- Claim C5: after the supervisory loop exits, the run performs exactly
the spec's shutdown sequence in order — conditional stop-all, then
conditional wait on the callback handle, then conditional shutdown hook,
then exit with the status — i.e. the source's shutdown code refines
`specShutdownSequence` and every non-failing run ends with it. -/
theorem shutdown_sequence_order (c : RunConfig) (h : c.signFails = false) :
    (∀ a b k f : Bool, shutdownSequence a b k f = specShutdownSequence a b k f) ∧
      lifecycleRun c =
        [Step.signTest]
          ++ (if c.hasStartupHook then [Step.startupHook] else [])
          ++ List.replicate (main_loop false c.snapshots).ticks Step.loopTick
          ++ specShutdownSequence c.anyWatcherAtShutdown c.hasOnBlockCallback
              c.hasShutdownHook (main_loop false c.snapshots).fatal := by
  have hsp : ∀ a b k f : Bool,
      shutdownSequence a b k f = specShutdownSequence a b k f := by
    intro a b k f
    rfl
  refine ⟨hsp, ?_⟩
  unfold lifecycleRun
  rw [if_neg (by simp [h])]
  rfl

theorem shutdown_sequence_order_witness :
    lifecycleRun ⟨false, true, true, true, true, [], false⟩ =
      [Step.signTest]
        ++ (if (⟨false, true, true, true, true, [], false⟩ : RunConfig).hasStartupHook
            then [Step.startupHook] else [])
        ++ List.replicate (main_loop false []).ticks Step.loopTick
        ++ specShutdownSequence true true true (main_loop false []).fatal :=
  (shutdown_sequence_order ⟨false, true, true, true, true, [], false⟩ rfl).2

theorem main_loop_tick_stop_true_cause (s : Snapshot)
    (h : main_loop_tick s = TickResult.stop true) :
    s.all_filter_threads_alive = false ∨ (isStale s = true ∧ s.syncing = false) := by
  unfold main_loop_tick at h
  by_cases h1 : s.terminated_internally
  · simp [h1] at h
  by_cases h2 : s.terminated_externally
  · simp [h1, h2] at h
  by_cases h3 : s.all_filter_threads_alive
  · right
    by_cases h4 : isStale s
    · by_cases h5 : s.syncing
      · simp [h1, h2, h3, h4, h5] at h
      · exact ⟨h4, by simpa using h5⟩
    · simp [h1, h2, h3, h4] at h
  · left
    simpa using h3

theorem main_loop_fatal_cause (l : List Snapshot)
    (h : (main_loop false l).fatal = true) :
    ∃ s ∈ l, s.all_filter_threads_alive = false ∨
      (isStale s = true ∧ s.syncing = false) := by
  induction l with
  | nil => simp [main_loop] at h
  | cons s rest ih =>
    unfold main_loop at h
    by_cases hg : (s.any_filter_thread_present || s.at_least_one_every) = true
    · rw [if_pos hg] at h
      cases htick : main_loop_tick s with
      | next =>
        rw [htick] at h
        simp only at h
        obtain ⟨t, ht, hc⟩ := ih h
        exact ⟨t, List.mem_cons_of_mem _ ht, hc⟩
      | stop f =>
        rw [htick] at h
        simp only [Bool.false_or] at h
        subst h
        exact ⟨s, List.mem_cons_self _ _, main_loop_tick_stop_true_cause s htick⟩
    · rw [if_neg hg] at h
      simp at h

/-- Claim C6: for runs terminating through the shutdown sequence, the exit
status is the distinguished non-zero value 10 exactly when the fatal flag
was set during the loop, and 0 otherwise; and the fatal flag is only ever
set by a tick that observed a dead watcher or a stale timestamp while not
syncing. -/
theorem exit_code_fatal_iff (l : List Snapshot) :
    (exitCode (main_loop false l).fatal ≠ 0 ↔ (main_loop false l).fatal = true) ∧
      ((main_loop false l).fatal = true → exitCode (main_loop false l).fatal = 10) ∧
      ((main_loop false l).fatal = false → exitCode (main_loop false l).fatal = 0) ∧
      ((main_loop false l).fatal = true →
        ∃ s ∈ l, s.all_filter_threads_alive = false ∨
          (isStale s = true ∧ s.syncing = false)) := by
  refine ⟨?_, fun hf => by simp [exitCode, hf], fun hf => by simp [exitCode, hf],
    main_loop_fatal_cause l⟩
  cases hf : (main_loop false l).fatal <;> simp [exitCode, hf]

theorem exit_code_fatal_iff_witness :
    (exitCode (main_loop false [(⟨false, false, false, none, 7, false, false, true⟩ :
            Snapshot)]).fatal ≠ 0 ↔
        (main_loop false [(⟨false, false, false, none, 7, false, false, true⟩ :
            Snapshot)]).fatal = true) ∧
      ∃ s ∈ [(⟨false, false, false, none, 7, false, false, true⟩ : Snapshot)],
        s.all_filter_threads_alive = false ∨ (isStale s = true ∧ s.syncing = false) :=
  ⟨(exit_code_fatal_iff [⟨false, false, false, none, 7, false, false, true⟩]).1,
    (exit_code_fatal_iff [⟨false, false, false, none, 7, false, false, true⟩]).2.2.2 rfl⟩

/-- Claim C7: a task registered by `every(frequency_in_seconds, callback)`
first fires after the fixed warm-up delay 1 and thereafter every
`frequency_in_seconds` (so firing `k` happens at `1 + k *
frequency_in_seconds`); every firing reschedules the next one whether or
not the callback raises, and when it raises, the timer is rescheduled
first and the error is then re-raised to the caller context rather than
swallowed. -/
theorem every_schedule (frequency_in_seconds : Int) (raises : Bool) (k : Nat) :
    fireTime frequency_in_seconds 0 = 1 ∧
      fireTime frequency_in_seconds (k + 1) =
        fireTime frequency_in_seconds k + frequency_in_seconds ∧
      fireTime frequency_in_seconds k = 1 + k * frequency_in_seconds ∧
      TimerEvent.scheduleTimer frequency_in_seconds ∈
        everyFunc frequency_in_seconds raises ∧
      (TimerEvent.raiseError ∈ everyFunc frequency_in_seconds raises ↔ raises = true) ∧
      everyFunc frequency_in_seconds true =
        [TimerEvent.invokeCallback, TimerEvent.scheduleTimer frequency_in_seconds,
          TimerEvent.raiseError] := by
  refine ⟨rfl, rfl, ?_, ?_, ?_, by simp [everyFunc]⟩
  · induction k with
    | zero => simp [fireTime]
    | succ n ih =>
      rw [fireTime, ih]
      push_cast
      ring
  · cases raises <;> simp [everyFunc]
  · cases raises <;> simp [everyFunc]

theorem every_schedule_witness :
    fireTime 10 3 = 1 + 3 * 10 ∧
      (TimerEvent.raiseError ∈ everyFunc 10 true ↔ true = true) :=
  ⟨(every_schedule 10 true 3).2.2.1, (every_schedule 10 true 3).2.2.2.2.1⟩

/-- Claim C8: when the startup signing test raises, the run is exactly the
signing test followed by `exit(-1)`: the exit code -1 differs from both
the clean code 0 and the fatal code 10, and no startup hook, no loop
iteration and no step of the shutdown sequence (stop-all, wait, shutdown
hook) ever runs. -/
theorem account_unlock_failure_aborts (c : RunConfig) (h : c.signFails = true) :
    lifecycleRun c = [Step.signTest, Step.exited (-1)] ∧
      ((-1 : Int) ≠ 0 ∧ (-1 : Int) ≠ 10) ∧
      Step.startupHook ∉ lifecycleRun c ∧
      Step.loopTick ∉ lifecycleRun c ∧
      Step.stopAllWatchers ∉ lifecycleRun c ∧
      Step.waitForCallback ∉ lifecycleRun c ∧
      Step.shutdownHook ∉ lifecycleRun c := by
  have he : lifecycleRun c = [Step.signTest, Step.exited (-1)] := by
    unfold lifecycleRun
    rw [if_pos h]
  rw [he]
  refine ⟨rfl, ⟨by decide, by decide⟩, ?_, ?_, ?_, ?_, ?_⟩ <;> decide

theorem account_unlock_failure_aborts_witness :
    lifecycleRun ⟨true, true, true, true, true, [], false⟩ =
        [Step.signTest, Step.exited (-1)] ∧
      Step.shutdownHook ∉ lifecycleRun ⟨true, true, true, true, true, [], false⟩ :=
  ⟨(account_unlock_failure_aborts ⟨true, true, true, true, true, [], false⟩ rfl).1,
    (account_unlock_failure_aborts ⟨true, true, true, true, true, [], false⟩
      rfl).2.2.2.2.2.2⟩

/-- Claim C9: the loop body executes at least once only if, at the first
guard evaluation, a watcher is registered or a periodic task was
scheduled; when neither holds the body never executes, the fatal flag
stays clear, and the run proceeds to shutdown with exit status 0. -/
theorem loop_skipped_when_nothing_registered (s : Snapshot) (rest : List Snapshot) :
    ((s.any_filter_thread_present || s.at_least_one_every) = false →
      main_loop false (s :: rest) = ⟨false, 0⟩ ∧
        exitCode (main_loop false (s :: rest)).fatal = 0) ∧
      (1 ≤ (main_loop false (s :: rest)).ticks →
        (s.any_filter_thread_present || s.at_least_one_every) = true) := by
  by_cases hg : (s.any_filter_thread_present || s.at_least_one_every) = true
  · refine ⟨fun hc => absurd hg (by simp [hc]), fun _ => hg⟩
  · have hg0 : (s.any_filter_thread_present || s.at_least_one_every) = false := by
      simpa using hg
    have hrun : main_loop false (s :: rest) = ⟨false, 0⟩ := by
      unfold main_loop
      rw [if_neg (by simp [hg0])]
    exact ⟨fun _ => ⟨hrun, by rw [hrun]; rfl⟩, fun ht => by rw [hrun] at ht; simp at ht⟩

theorem loop_skipped_when_nothing_registered_witness :
    main_loop false [(⟨false, false, true, none, 0, false, false, false⟩ : Snapshot)] =
        ⟨false, 0⟩ ∧
      exitCode
          (main_loop false
            [(⟨false, false, true, none, 0, false, false, false⟩ : Snapshot)]).fatal
        = 0 :=
  (loop_skipped_when_nothing_registered
    ⟨false, false, true, none, 0, false, false, false⟩ []).1 rfl

/-- Claim C10: the shutdown sequence synchronizes only with the on-block
callback handle. The run trace is unchanged by whether a periodic (`every`)
callback is in flight at shutdown, never stops or waits for the periodic
timers, waits (at most once) exactly when the account test passed and an
on-block callback handle exists, and every timer created by `every` is a
daemon thread. -/
theorem periodic_timers_not_awaited (c : RunConfig) (b : Bool) :
    lifecycleRun { c with periodicCallbackInFlight := b } = lifecycleRun c ∧
      Step.waitForPeriodicTimers ∉ lifecycleRun c ∧
      Step.stopPeriodicTimers ∉ lifecycleRun c ∧
      (Step.waitForCallback ∈ lifecycleRun c ↔
        (c.signFails = false ∧ c.hasOnBlockCallback = true)) ∧
      timerDaemon = true := by
  refine ⟨rfl, ?_, ?_, ?_, rfl⟩ <;>
    · unfold lifecycleRun shutdownSequence
      split_ifs <;>
        simp_all [List.mem_append, List.mem_replicate]

theorem periodic_timers_not_awaited_witness :
    Step.waitForPeriodicTimers ∉ lifecycleRun ⟨false, false, false, true, true, [], false⟩ ∧
      (Step.waitForCallback ∈ lifecycleRun ⟨false, false, false, true, true, [], false⟩ ↔
        ((false : Bool) = false ∧ (true : Bool) = true)) :=
  ⟨(periodic_timers_not_awaited ⟨false, false, false, true, true, [], false⟩ true).2.1,
    (periodic_timers_not_awaited ⟨false, false, false, true, true, [], false⟩ true).2.2.2.1⟩

end Keeper

